import Mathlib

/-!
Shallow embedding of the `plus12monkeys` wizard backend, covering the
recommendation engine (`app/services/recommender.py`), the MCP registry
(`app/services/mcp_registry.py`), the template registry
(`app/services/template_registry.py`), the session store
(`app/services/session_store.py`), the wizard API endpoints
(`app/api/wizard.py`) and the orchestrator's session-resolution and
no-API-key turn (`app/services/orchestrator.py`).

Conventions of the embedding:

* Pure Python functions become Lean functions; functions that can raise
  become `Except PyErr _`-valued functions.
* The backend's models are pydantic v2 `BaseModel`s with the default
  configuration (`extra` not set to `allow`).  Under that configuration,
  reading an attribute that is not a declared field raises
  `AttributeError`, and unknown keyword arguments to the constructor are
  silently dropped.  Both facts matter below: `recommender.py` reads
  `reqs.custom_agents` and `wizard.py` reads
  `session.requirements.repo_intent`, but `ExtractedRequirements`
  (`app/models/conversation.py`) declares neither field.  These accesses
  are embedded as `Except.error (PyErr.attributeError _)`.
* `datetime` values are embedded as an abstract integer instant plus an
  `aware` flag.  `datetime.utcnow()` yields a naive value and
  `datetime.now(timezone.utc)` an aware value at the same instant;
  subtracting a naive from an aware datetime (or vice versa) raises
  `TypeError` in Python and is embedded as `Except.error PyErr.typeError`.
  Time units are abstract; a store's `ttl` is the `timedelta` threshold in
  the same units.
* Python dicts are embedded as association lists in insertion order;
  keys are unique in every state the backend actually builds.
* String case-folding, trimming and substring tests are embedded
  character-listwise with ASCII semantics (the registries' keys are all
  ASCII).
* Registry entry fields that none of the embedded functions consult
  (`description`, `documentation_url`, `optional_env`, `tags`,
  `is_official`, `status`, `endpoint_url`, `last_health_check`, and the
  bodies of template definitions beyond `id` and `framework`) are omitted;
  `tools` is kept as the list of tool names since only its length is read.
* Identifier renamings forced by Lean: the deployment targets `local` and
  `export` are Lean keywords and are spelled `local_` and `export_`; the
  leading underscore of private Python names is dropped
  (`_KEYWORD_TO_SERVER_ID` becomes `keyword_to_server_id`, and so on).
-/

/-- Python exceptions that the embedded code can raise. -/
inductive PyErr where
  /-- `AttributeError` from reading an undeclared pydantic field; the
  payload is the attribute name. -/
  | attributeError (attr : String)
  /-- `TypeError` from subtracting or comparing naive and aware datetimes. -/
  | typeError
  /-- `ValueError`, e.g. from `min()` on an empty sequence. -/
  | valueError (msg : String)
deriving DecidableEq, Repr

/-- Message text of an exception, as `str(exc)` renders it in
`wizard.py`'s error details. -/
def PyErr.pymsg : PyErr → String
  | .attributeError attr =>
      "'ExtractedRequirements' object has no attribute '" ++ attr ++ "'"
  | .typeError => "can't subtract offset-naive and offset-aware datetimes"
  | .valueError msg => msg

/-- Message roles (`app/models/conversation.py`, `Role`). -/
inductive Role where
  | user
  | assistant
  | system
deriving DecidableEq, Repr

/-- Wizard session states (`app/models/conversation.py`, `SessionStatus`). -/
inductive SessionStatus where
  | gathering
  | recommending
  | confirmed
  | generating
  | complete
deriving DecidableEq, Repr

/-- Enum value strings of `SessionStatus`. -/
def SessionStatus.value : SessionStatus → String
  | .gathering => "gathering"
  | .recommending => "recommending"
  | .confirmed => "confirmed"
  | .generating => "generating"
  | .complete => "complete"

/-- Agent frameworks (`app/models/conversation.py`, `FrameworkChoice`). -/
inductive FrameworkChoice where
  | langgraph
  | crewai
  | autogen
  | semantic_kernel
  | vercel_ai
  | rig
  | adk_go
deriving DecidableEq, Repr

/-- Enum value strings of `FrameworkChoice`. -/
def FrameworkChoice.value : FrameworkChoice → String
  | .langgraph => "langgraph"
  | .crewai => "crewai"
  | .autogen => "autogen"
  | .semantic_kernel => "semantic-kernel"
  | .vercel_ai => "vercel-ai"
  | .rig => "rig"
  | .adk_go => "adk-go"

/-- Deployment targets (`app/models/conversation.py`, `DeploymentTarget`);
`local` and `export` are Lean keywords, hence the underscores. -/
inductive DeploymentTarget where
  | local_
  | cloud
  | export_
deriving DecidableEq, Repr

/-- Enum value strings of `DeploymentTarget`. -/
def DeploymentTarget.value : DeploymentTarget → String
  | .local_ => "local"
  | .cloud => "cloud"
  | .export_ => "export"

/-- MCP server categories (`app/models/mcp.py`, `MCPCategory`). -/
inductive MCPCategory where
  | data
  | communication
  | dev_tools
  | productivity
  | search
  | ai_ml
  | finance
  | intelligence
  | custom
deriving DecidableEq, Repr

/-- Enum value strings of `MCPCategory`. -/
def MCPCategory.value : MCPCategory → String
  | .data => "data"
  | .communication => "communication"
  | .dev_tools => "dev-tools"
  | .productivity => "productivity"
  | .search => "search"
  | .ai_ml => "ai-ml"
  | .finance => "finance"
  | .intelligence => "intelligence"
  | .custom => "custom"

/-! String helpers.  The Python code uses `str.lower`, `str.strip` and the
substring operator `in`; the embedding implements them character-listwise
(ASCII case rules) so that they reduce inside the kernel. -/

/-- `str.lower()` (ASCII case rules; every registry key is ASCII). -/
def pyLower (s : String) : String := ⟨s.data.map Char.toLower⟩

/-- `str.strip()`: drop leading and trailing whitespace. -/
def pyStrip (s : String) : String :=
  ⟨(s.data.dropWhile Char.isWhitespace).reverse.dropWhile Char.isWhitespace |>.reverse⟩

/-- Boolean prefix test on character lists. -/
def charsStartsWith : List Char → List Char → Bool
  | [], _ => true
  | _ :: _, [] => false
  | a :: as, b :: bs => a = b && charsStartsWith as bs

/-- Boolean contiguous-sublist test on character lists. -/
def charsContains (pat : List Char) : List Char → Bool
  | [] => pat.isEmpty
  | c :: rest => charsStartsWith pat (c :: rest) || charsContains pat rest

/-- Python's substring operator: `pyIn pat s` is `pat in s`. -/
def pyIn (pat s : String) : Bool := charsContains pat.data s.data

/-- Python dict lookup on an association list; keys of the embedded tables
are pairwise distinct, so first match equals dict semantics. -/
def assocGet (l : List (String × String)) (k : String) : Option String :=
  (l.find? (fun p => p.1 = k)).map (fun p => p.2)

/-! MCP server registry (`app/services/mcp_registry.py`).  Each `_reg`
call registers one `MCPServerEntry`; the dict is keyed by `entry.id` in
registration order and ids are pairwise distinct.  Only the fields the
embedded functions consult are carried (see the header comment). -/

/-- Metadata of one MCP server (`app/models/mcp.py`, `MCPServerEntry`),
restricted to the consulted fields; `tools` keeps only the tool names,
since the code reads only `len(entry.tools)`. -/
structure MCPServerEntry where
  id : String
  name : String
  category : MCPCategory
  command : String
  args : List String
  required_env : List String
  npm_package : Option String
  icon : Option String
  tools : List String
deriving DecidableEq, Repr


def mcp_servers_registry : List MCPServerEntry := [
  { id := "postgres", name := "PostgreSQL", category := .data,
    command := "npx", args := ["-y", "@modelcontextprotocol/server-postgres"],
    required_env := ["DATABASE_URL"],
    npm_package := some "@modelcontextprotocol/server-postgres", icon := some "🐘", tools := [] },
  { id := "mongodb", name := "MongoDB", category := .data,
    command := "npx", args := ["-y", "@modelcontextprotocol/server-mongodb"],
    required_env := ["MONGODB_URI"],
    npm_package := some "@modelcontextprotocol/server-mongodb", icon := some "🍃", tools := [] },
  { id := "sqlite", name := "SQLite", category := .data,
    command := "npx", args := ["-y", "@modelcontextprotocol/server-sqlite"],
    required_env := ["SQLITE_PATH"],
    npm_package := some "@modelcontextprotocol/server-sqlite", icon := some "📦", tools := [] },
  { id := "google-drive", name := "Google Drive", category := .data,
    command := "npx", args := ["-y", "@modelcontextprotocol/server-gdrive"],
    required_env := ["GOOGLE_CLIENT_ID", "GOOGLE_CLIENT_SECRET", "GOOGLE_REFRESH_TOKEN"],
    npm_package := some "@modelcontextprotocol/server-gdrive", icon := some "📁", tools := [] },
  { id := "slack", name := "Slack", category := .communication,
    command := "npx", args := ["-y", "@modelcontextprotocol/server-slack"],
    required_env := ["SLACK_BOT_TOKEN"],
    npm_package := some "@modelcontextprotocol/server-slack", icon := some "💬", tools := [] },
  { id := "email", name := "Email (SMTP/IMAP)", category := .communication,
    command := "npx", args := ["-y", "@email/mcp-server"],
    required_env := ["SMTP_HOST", "SMTP_USER", "SMTP_PASS", "IMAP_HOST"],
    npm_package := some "@email/mcp-server", icon := some "📧", tools := [] },
  { id := "discord", name := "Discord", category := .communication,
    command := "npx", args := ["-y", "@discord/mcp-server"],
    required_env := ["DISCORD_BOT_TOKEN"],
    npm_package := some "@discord/mcp-server", icon := some "🎮", tools := [] },
  { id := "github", name := "GitHub", category := .dev_tools,
    command := "npx", args := ["-y", "@modelcontextprotocol/server-github"],
    required_env := ["GITHUB_TOKEN"],
    npm_package := some "@modelcontextprotocol/server-github", icon := some "🐙", tools := [] },
  { id := "filesystem", name := "Filesystem", category := .dev_tools,
    command := "npx", args := ["-y", "@modelcontextprotocol/server-filesystem"],
    required_env := ["ALLOWED_DIRECTORIES"],
    npm_package := some "@modelcontextprotocol/server-filesystem", icon := some "📂", tools := [] },
  { id := "notion", name := "Notion", category := .productivity,
    command := "npx", args := ["-y", "@modelcontextprotocol/server-notion"],
    required_env := ["NOTION_API_KEY"],
    npm_package := some "@modelcontextprotocol/server-notion", icon := some "📝", tools := [] },
  { id := "linear", name := "Linear", category := .productivity,
    command := "npx", args := ["-y", "@linear/mcp-server"],
    required_env := ["LINEAR_API_KEY"],
    npm_package := some "@linear/mcp-server", icon := some "🔷", tools := [] },
  { id := "jira", name := "Jira", category := .productivity,
    command := "npx", args := ["-y", "@atlassian/jira-mcp-server"],
    required_env := ["JIRA_URL", "JIRA_EMAIL", "JIRA_API_TOKEN"],
    npm_package := some "@atlassian/jira-mcp-server", icon := some "📋", tools := [] },
  { id := "web-search", name := "Web Search", category := .search,
    command := "npx", args := ["-y", "@modelcontextprotocol/server-brave-search"],
    required_env := ["BRAVE_API_KEY"],
    npm_package := some "@modelcontextprotocol/server-brave-search", icon := some "🔍", tools := [] },
  { id := "arxiv", name := "Arxiv", category := .search,
    command := "npx", args := ["-y", "@arxiv/mcp-server"],
    required_env := [],
    npm_package := some "@arxiv/mcp-server", icon := some "📄", tools := [] },
  { id := "huggingface", name := "Hugging Face", category := .ai_ml,
    command := "npx", args := ["-y", "@huggingface/mcp-server"],
    required_env := ["HF_TOKEN"],
    npm_package := some "@huggingface/mcp-server", icon := some "🤗", tools := [] },
  { id := "salesforce", name := "Salesforce", category := .data,
    command := "npx", args := ["-y", "@salesforce/mcp-server"],
    required_env := ["SALESFORCE_INSTANCE_URL", "SALESFORCE_ACCESS_TOKEN"],
    npm_package := some "@salesforce/mcp-server", icon := some "☁️", tools := [] },
  { id := "fetch", name := "Fetch", category := .data,
    command := "npx", args := ["-y", "@modelcontextprotocol/server-fetch"],
    required_env := [],
    npm_package := some "@modelcontextprotocol/server-fetch", icon := some "🌐", tools := [] },
  { id := "git", name := "Git", category := .dev_tools,
    command := "npx", args := ["-y", "@modelcontextprotocol/server-git"],
    required_env := [],
    npm_package := some "@modelcontextprotocol/server-git", icon := some "🔀", tools := [] },
  { id := "memory", name := "Memory (Knowledge Graph)", category := .ai_ml,
    command := "npx", args := ["-y", "@modelcontextprotocol/server-memory"],
    required_env := [],
    npm_package := some "@modelcontextprotocol/server-memory", icon := some "🧠", tools := [] },
  { id := "sequential-thinking", name := "Sequential Thinking", category := .ai_ml,
    command := "npx", args := ["-y", "@modelcontextprotocol/server-sequential-thinking"],
    required_env := [],
    npm_package := some "@modelcontextprotocol/server-sequential-thinking", icon := some "🔗", tools := [] },
  { id := "time", name := "Time", category := .data,
    command := "npx", args := ["-y", "@modelcontextprotocol/server-time"],
    required_env := [],
    npm_package := some "@modelcontextprotocol/server-time", icon := some "🕐", tools := [] },
  { id := "mysql", name := "MySQL", category := .data,
    command := "npx", args := ["-y", "@benborla29/mcp-server-mysql"],
    required_env := ["MYSQL_HOST", "MYSQL_USER", "MYSQL_PASSWORD", "MYSQL_DATABASE"],
    npm_package := some "@benborla29/mcp-server-mysql", icon := some "🐬", tools := [] },
  { id := "redis", name := "Redis", category := .data,
    command := "npx", args := ["-y", "@modelcontextprotocol/server-redis"],
    required_env := ["REDIS_URL"],
    npm_package := some "@modelcontextprotocol/server-redis", icon := some "🔴", tools := [] },
  { id := "supabase", name := "Supabase", category := .data,
    command := "npx", args := ["-y", "supabase-mcp-server"],
    required_env := ["SUPABASE_URL", "SUPABASE_SERVICE_ROLE_KEY"],
    npm_package := some "supabase-mcp-server", icon := some "⚡", tools := [] },
  { id := "snowflake", name := "Snowflake", category := .data,
    command := "npx", args := ["-y", "@snowflake/mcp-server"],
    required_env := ["SNOWFLAKE_ACCOUNT", "SNOWFLAKE_USER", "SNOWFLAKE_PASSWORD"],
    npm_package := some "@snowflake/mcp-server", icon := some "❄️", tools := [] },
  { id := "pinecone", name := "Pinecone", category := .data,
    command := "npx", args := ["-y", "@pinecone-database/mcp-server"],
    required_env := ["PINECONE_API_KEY"],
    npm_package := some "@pinecone-database/mcp-server", icon := some "🌲", tools := [] },
  { id := "neo4j", name := "Neo4j", category := .data,
    command := "npx", args := ["-y", "@neo4j/mcp-server"],
    required_env := ["NEO4J_URI", "NEO4J_USER", "NEO4J_PASSWORD"],
    npm_package := some "@neo4j/mcp-server", icon := some "🔵", tools := [] },
  { id := "breach", name := "Breach Intelligence", category := .intelligence,
    command := "http", args := [],
    required_env := [],
    npm_package := none, icon := some "🔓", tools := [] },
  { id := "twilio", name := "Twilio", category := .communication,
    command := "npx", args := ["-y", "@twilio/mcp-server"],
    required_env := ["TWILIO_ACCOUNT_SID", "TWILIO_AUTH_TOKEN"],
    npm_package := some "@twilio/mcp-server", icon := some "📱", tools := [] },
  { id := "telegram", name := "Telegram", category := .communication,
    command := "npx", args := ["-y", "telegram-mcp-server"],
    required_env := ["TELEGRAM_BOT_TOKEN"],
    npm_package := some "telegram-mcp-server", icon := some "✈️", tools := [] },
  { id := "twitter", name := "Twitter / X", category := .communication,
    command := "npx", args := ["-y", "twitter-mcp-server"],
    required_env := ["TWITTER_API_KEY", "TWITTER_API_SECRET", "TWITTER_ACCESS_TOKEN", "TWITTER_ACCESS_SECRET"],
    npm_package := some "twitter-mcp-server", icon := some "🐦", tools := [] },
  { id := "gitlab", name := "GitLab", category := .dev_tools,
    command := "npx", args := ["-y", "@gitlab/mcp-server"],
    required_env := ["GITLAB_TOKEN"],
    npm_package := some "@gitlab/mcp-server", icon := some "🦊", tools := [] },
  { id := "sentry", name := "Sentry", category := .dev_tools,
    command := "npx", args := ["-y", "@sentry/mcp-server"],
    required_env := ["SENTRY_AUTH_TOKEN"],
    npm_package := some "@sentry/mcp-server", icon := some "🐛", tools := [] },
  { id := "docker", name := "Docker", category := .dev_tools,
    command := "npx", args := ["-y", "@docker/mcp-server"],
    required_env := [],
    npm_package := some "@docker/mcp-server", icon := some "🐳", tools := [] },
  { id := "kubernetes", name := "Kubernetes", category := .dev_tools,
    command := "npx", args := ["-y", "kubernetes-mcp-server"],
    required_env := [],
    npm_package := some "kubernetes-mcp-server", icon := some "☸️", tools := [] },
  { id := "puppeteer", name := "Puppeteer", category := .dev_tools,
    command := "npx", args := ["-y", "@modelcontextprotocol/server-puppeteer"],
    required_env := [],
    npm_package := some "@modelcontextprotocol/server-puppeteer", icon := some "🎭", tools := [] },
  { id := "playwright", name := "Playwright", category := .dev_tools,
    command := "npx", args := ["-y", "@playwright/mcp-server"],
    required_env := [],
    npm_package := some "@playwright/mcp-server", icon := some "🎪", tools := [] },
  { id := "cloudflare", name := "Cloudflare (Code Mode)", category := .dev_tools,
    command := "", args := [],
    required_env := [],
    npm_package := none, icon := some "🔶", tools := ["search", "execute"] },
  { id := "google-calendar", name := "Google Calendar", category := .productivity,
    command := "npx", args := ["-y", "google-calendar-mcp-server"],
    required_env := ["GOOGLE_CLIENT_ID", "GOOGLE_CLIENT_SECRET", "GOOGLE_REFRESH_TOKEN"],
    npm_package := some "google-calendar-mcp-server", icon := some "📅", tools := [] },
  { id := "trello", name := "Trello", category := .productivity,
    command := "npx", args := ["-y", "trello-mcp-server"],
    required_env := ["TRELLO_API_KEY", "TRELLO_TOKEN"],
    npm_package := some "trello-mcp-server", icon := some "📊", tools := [] },
  { id := "todoist", name := "Todoist", category := .productivity,
    command := "npx", args := ["-y", "todoist-mcp-server"],
    required_env := ["TODOIST_API_TOKEN"],
    npm_package := some "todoist-mcp-server", icon := some "✅", tools := [] },
  { id := "confluence", name := "Confluence", category := .productivity,
    command := "npx", args := ["-y", "@atlassian/confluence-mcp-server"],
    required_env := ["CONFLUENCE_URL", "CONFLUENCE_EMAIL", "CONFLUENCE_API_TOKEN"],
    npm_package := some "@atlassian/confluence-mcp-server", icon := some "📘", tools := [] },
  { id := "tavily", name := "Tavily", category := .search,
    command := "npx", args := ["-y", "tavily-mcp-server"],
    required_env := ["TAVILY_API_KEY"],
    npm_package := some "tavily-mcp-server", icon := some "🔎", tools := [] },
  { id := "exa", name := "Exa", category := .search,
    command := "npx", args := ["-y", "exa-mcp-server"],
    required_env := ["EXA_API_KEY"],
    npm_package := some "exa-mcp-server", icon := some "🧬", tools := [] },
  { id := "stripe", name := "Stripe", category := .finance,
    command := "npx", args := ["-y", "@stripe/mcp-server"],
    required_env := ["STRIPE_SECRET_KEY"],
    npm_package := some "@stripe/mcp-server", icon := some "💳", tools := [] },
  { id := "shopify", name := "Shopify", category := .finance,
    command := "npx", args := ["-y", "@shopify/mcp-server"],
    required_env := ["SHOPIFY_STORE_URL", "SHOPIFY_ACCESS_TOKEN"],
    npm_package := some "@shopify/mcp-server", icon := some "🛒", tools := [] },
  { id := "replicate", name := "Replicate", category := .ai_ml,
    command := "npx", args := ["-y", "replicate-mcp-server"],
    required_env := ["REPLICATE_API_TOKEN"],
    npm_package := some "replicate-mcp-server", icon := some "🔄", tools := [] },
  { id := "aws", name := "AWS", category := .dev_tools,
    command := "npx", args := ["-y", "@awslabs/mcp-server-aws-core"],
    required_env := ["AWS_ACCESS_KEY_ID", "AWS_SECRET_ACCESS_KEY"],
    npm_package := some "@awslabs/mcp-server-aws-core", icon := some "🟠", tools := [] },
  { id := "azure-devops", name := "Azure DevOps", category := .dev_tools,
    command := "npx", args := ["-y", "@microsoft/azure-devops-mcp-server"],
    required_env := ["AZURE_DEVOPS_ORG_URL", "AZURE_DEVOPS_PAT"],
    npm_package := some "@microsoft/azure-devops-mcp-server", icon := some "🔷", tools := [] },
  { id := "microsoft-365", name := "Microsoft 365", category := .productivity,
    command := "npx", args := ["-y", "@microsoft/microsoft-365-mcp-server"],
    required_env := ["MS365_CLIENT_ID", "MS365_CLIENT_SECRET", "MS365_TENANT_ID"],
    npm_package := some "@microsoft/microsoft-365-mcp-server", icon := some "Ⓜ️", tools := [] },
  { id := "bigquery", name := "BigQuery", category := .data,
    command := "npx", args := ["-y", "mcp-server-bigquery"],
    required_env := ["GOOGLE_PROJECT_ID"],
    npm_package := some "mcp-server-bigquery", icon := some "📊", tools := [] },
  { id := "youtube", name := "YouTube", category := .data,
    command := "npx", args := ["-y", "mcp-youtube"],
    required_env := [],
    npm_package := some "mcp-youtube", icon := some "▶️", tools := [] },
  { id := "airtable", name := "Airtable", category := .data,
    command := "npx", args := ["-y", "airtable-mcp-server"],
    required_env := ["AIRTABLE_API_KEY"],
    npm_package := some "airtable-mcp-server", icon := some "📗", tools := [] },
  { id := "contentful", name := "Contentful", category := .data,
    command := "npx", args := ["-y", "contentful-mcp-server"],
    required_env := ["CONTENTFUL_SPACE_ID", "CONTENTFUL_ACCESS_TOKEN"],
    npm_package := some "contentful-mcp-server", icon := some "📰", tools := [] },
  { id := "dynamodb", name := "DynamoDB", category := .data,
    command := "npx", args := ["-y", "dynamodb-mcp-server"],
    required_env := ["AWS_ACCESS_KEY_ID", "AWS_SECRET_ACCESS_KEY"],
    npm_package := some "dynamodb-mcp-server", icon := some "⚙️", tools := [] },
  { id := "obsidian", name := "Obsidian", category := .productivity,
    command := "npx", args := ["-y", "obsidian-mcp-server"],
    required_env := ["OBSIDIAN_REST_API_KEY"],
    npm_package := some "obsidian-mcp-server", icon := some "💎", tools := [] },
  { id := "make", name := "Make (Integromat)", category := .productivity,
    command := "npx", args := ["-y", "make-mcp-server"],
    required_env := ["MAKE_API_TOKEN"],
    npm_package := some "make-mcp-server", icon := some "🔧", tools := [] },
  { id := "postman", name := "Postman", category := .dev_tools,
    command := "npx", args := ["-y", "@postmanlabs/postman-mcp-server"],
    required_env := ["POSTMAN_API_KEY"],
    npm_package := some "@postmanlabs/postman-mcp-server", icon := some "📮", tools := [] },
  { id := "sonarqube", name := "SonarQube", category := .dev_tools,
    command := "npx", args := ["-y", "@sonarsource/sonarqube-mcp-server"],
    required_env := ["SONARQUBE_URL", "SONARQUBE_TOKEN"],
    npm_package := some "@sonarsource/sonarqube-mcp-server", icon := some "📐", tools := [] },
  { id := "home-assistant", name := "Home Assistant", category := .data,
    command := "npx", args := ["-y", "homeassistant-mcp-server"],
    required_env := ["HASS_URL", "HASS_TOKEN"],
    npm_package := some "homeassistant-mcp-server", icon := some "🏠", tools := [] },
  { id := "spotify", name := "Spotify", category := .data,
    command := "npx", args := ["-y", "spotify-mcp-server"],
    required_env := ["SPOTIFY_CLIENT_ID", "SPOTIFY_CLIENT_SECRET", "SPOTIFY_REFRESH_TOKEN"],
    npm_package := some "spotify-mcp-server", icon := some "🎵", tools := [] },
  { id := "netlify-deploy", name := "Netlify Deploy", category := .dev_tools,
    command := "npx", args := ["-y", "@anthropic/netlify-mcp-server"],
    required_env := ["NETLIFY_AUTH_TOKEN"],
    npm_package := some "@anthropic/netlify-mcp-server", icon := some "🔺", tools := [] },
  { id := "browser-preview", name := "Browser Preview", category := .dev_tools,
    command := "npx", args := ["-y", "@anthropic/browser-preview-mcp-server"],
    required_env := [],
    npm_package := some "@anthropic/browser-preview-mcp-server", icon := some "🌐", tools := [] },
  { id := "session-memory", name := "Session Memory", category := .ai_ml,
    command := "npx", args := ["-y", "@anthropic/memory-mcp-server"],
    required_env := [],
    npm_package := some "@anthropic/memory-mcp-server", icon := some "🧠", tools := [] },
  { id := "planning", name := "Planning & Task Management", category := .productivity,
    command := "npx", args := ["-y", "@anthropic/planning-mcp-server"],
    required_env := [],
    npm_package := some "@anthropic/planning-mcp-server", icon := some "📋", tools := [] },
  { id := "integration-health", name := "Integration Health Check", category := .dev_tools,
    command := "npx", args := ["-y", "@anthropic/integration-health-mcp-server"],
    required_env := [],
    npm_package := some "@anthropic/integration-health-mcp-server", icon := some "💚", tools := [] },
  { id := "deploy-universal", name := "Universal Deploy", category := .dev_tools,
    command := "npx", args := ["-y", "@anthropic/deploy-mcp-server"],
    required_env := [],
    npm_package := some "@anthropic/deploy-mcp-server", icon := some "🚀", tools := [] }
]

/-- `get_server` (`mcp_registry.py`): dict lookup by id. -/
def get_server (server_id : String) : Option MCPServerEntry :=
  mcp_servers_registry.find? (fun e => e.id = server_id)

/-! Template registry (`app/services/template_registry.py`).  Twenty
templates registered in order, keyed by id; `get_template_for_framework`
scans them in registration order.  Only `id` and `framework` are consulted
by the embedded endpoints (the generation stage raises before any template
content is used), so only those fields are carried. -/

/-- One agent template (`app/models/template.py`, `AgentTemplate`),
restricted to the consulted fields. -/
structure AgentTemplate where
  id : String
  framework : FrameworkChoice
deriving DecidableEq, Repr

/-- Registration order and frameworks of the twenty built-in templates. -/
def templates_registry : List AgentTemplate := [
  { id := "customer-service", framework := .crewai },
  { id := "research", framework := .langgraph },
  { id := "data-analysis", framework := .langgraph },
  { id := "code-generation", framework := .langgraph },
  { id := "multi-agent-team", framework := .autogen },
  { id := "sales-lead-gen", framework := .langgraph },
  { id := "content-repurposer", framework := .crewai },
  { id := "ecommerce-analyzer", framework := .langgraph },
  { id := "operations-sop", framework := .langgraph },
  { id := "healthcare-practice", framework := .crewai },
  { id := "real-estate-marketing", framework := .crewai },
  { id := "education-builder", framework := .langgraph },
  { id := "stem-lab-simulator", framework := .langgraph },
  { id := "stem-coding-tutor", framework := .crewai },
  { id := "grant-writing-assistant", framework := .langgraph },
  { id := "systematic-lit-review", framework := .langgraph },
  { id := "portfolio-risk-analyzer", framework := .langgraph },
  { id := "compliance-fraud-detection", framework := .crewai },
  { id := "mission-planning-intel", framework := .langgraph },
  { id := "clinical-decision-support", framework := .crewai }
]

/-- `get_template_for_framework` (`template_registry.py`): first template
whose framework matches, scanning in registration order. -/
def get_template_for_framework (framework : FrameworkChoice) : Option AgentTemplate :=
  templates_registry.find? (fun t => t.framework = framework)

/-! Recommendation engine (`app/services/recommender.py`). -/

/-- Keyword-to-server-id synonym table (`_KEYWORD_TO_SERVER_ID`), in
source order; keys are pairwise distinct. -/
def keyword_to_server_id : List (String × String) := [
  ("salesforce", "salesforce"),
  ("sfdc", "salesforce"),
  ("crm", "salesforce"),
  ("slack", "slack"),
  ("github", "github"),
  ("postgres", "postgres"),
  ("postgresql", "postgres"),
  ("sql", "postgres"),
  ("sqlite", "sqlite"),
  ("email", "email"),
  ("smtp", "email"),
  ("mail", "email"),
  ("search", "web-search"),
  ("brave search", "web-search"),
  ("google search", "web-search"),
  ("mongo", "mongodb"),
  ("mongodb", "mongodb"),
  ("notion", "notion"),
  ("drive", "google-drive"),
  ("google drive", "google-drive"),
  ("gdrive", "google-drive"),
  ("discord", "discord"),
  ("linear", "linear"),
  ("jira", "jira"),
  ("atlassian jira", "jira"),
  ("filesystem", "filesystem"),
  ("files", "filesystem"),
  ("file system", "filesystem"),
  ("arxiv", "arxiv"),
  ("papers", "arxiv"),
  ("academic papers", "arxiv"),
  ("huggingface", "huggingface"),
  ("hugging face", "huggingface"),
  ("hf", "huggingface"),
  ("breach", "breach"),
  ("intelligence", "breach"),
  ("facilities", "breach"),
  ("defense", "breach"),
  ("military", "breach"),
  ("clawbot", "breach"),
  ("research facilities", "breach"),
  ("knowledge graph", "breach"),
  ("satellite", "breach"),
  ("palantir", "breach"),
  ("fetch", "fetch"),
  ("web fetch", "fetch"),
  ("scrape", "fetch"),
  ("scraping", "fetch"),
  ("git", "git"),
  ("version control", "git"),
  ("git log", "git"),
  ("git diff", "git"),
  ("memory", "memory"),
  ("remember", "memory"),
  ("persistent memory", "memory"),
  ("sequential thinking", "sequential-thinking"),
  ("reasoning", "sequential-thinking"),
  ("chain of thought", "sequential-thinking"),
  ("thinking", "sequential-thinking"),
  ("time", "time"),
  ("timezone", "time"),
  ("clock", "time"),
  ("datetime", "time"),
  ("mysql", "mysql"),
  ("mariadb", "mysql"),
  ("redis", "redis"),
  ("cache", "redis"),
  ("key-value", "redis"),
  ("supabase", "supabase"),
  ("supabase db", "supabase"),
  ("snowflake", "snowflake"),
  ("data warehouse", "snowflake"),
  ("pinecone", "pinecone"),
  ("vector database", "pinecone"),
  ("vector db", "pinecone"),
  ("embeddings", "pinecone"),
  ("rag", "pinecone"),
  ("neo4j", "neo4j"),
  ("graph database", "neo4j"),
  ("cypher", "neo4j"),
  ("twilio", "twilio"),
  ("sms", "twilio"),
  ("phone", "twilio"),
  ("voice", "twilio"),
  ("telegram", "telegram"),
  ("telegram bot", "telegram"),
  ("twitter", "twitter"),
  ("x", "twitter"),
  ("tweets", "twitter"),
  ("social media", "twitter"),
  ("gitlab", "gitlab"),
  ("merge request", "gitlab"),
  ("sentry", "sentry"),
  ("error tracking", "sentry"),
  ("error monitoring", "sentry"),
  ("docker", "docker"),
  ("containers", "docker"),
  ("dockerfile", "docker"),
  ("kubernetes", "kubernetes"),
  ("k8s", "kubernetes"),
  ("pods", "kubernetes"),
  ("puppeteer", "puppeteer"),
  ("browser automation", "puppeteer"),
  ("screenshot", "puppeteer"),
  ("playwright", "playwright"),
  ("cross-browser", "playwright"),
  ("e2e testing", "playwright"),
  ("cloudflare", "cloudflare"),
  ("workers", "cloudflare"),
  ("cdn", "cloudflare"),
  ("google calendar", "google-calendar"),
  ("calendar", "google-calendar"),
  ("gcal", "google-calendar"),
  ("scheduling", "google-calendar"),
  ("trello", "trello"),
  ("kanban", "trello"),
  ("boards", "trello"),
  ("todoist", "todoist"),
  ("todo", "todoist"),
  ("tasks", "todoist"),
  ("confluence", "confluence"),
  ("wiki", "confluence"),
  ("atlassian confluence", "confluence"),
  ("tavily", "tavily"),
  ("ai search", "tavily"),
  ("exa", "exa"),
  ("neural search", "exa"),
  ("semantic search", "exa"),
  ("stripe", "stripe"),
  ("payments", "stripe"),
  ("billing", "stripe"),
  ("subscriptions", "stripe"),
  ("invoices", "stripe"),
  ("shopify", "shopify"),
  ("ecommerce", "shopify"),
  ("e-commerce", "shopify"),
  ("online store", "shopify"),
  ("products", "shopify"),
  ("replicate", "replicate"),
  ("image generation", "replicate"),
  ("ml models", "replicate"),
  ("stable diffusion", "replicate"),
  ("aws", "aws"),
  ("amazon web services", "aws"),
  ("s3", "aws"),
  ("lambda", "aws"),
  ("ec2", "aws"),
  ("cloudformation", "aws"),
  ("cdk", "aws"),
  ("bedrock", "aws"),
  ("azure devops", "azure-devops"),
  ("azure pipelines", "azure-devops"),
  ("azure boards", "azure-devops"),
  ("azure repos", "azure-devops"),
  ("microsoft 365", "microsoft-365"),
  ("office 365", "microsoft-365"),
  ("outlook", "microsoft-365"),
  ("teams", "microsoft-365"),
  ("excel", "microsoft-365"),
  ("onedrive", "microsoft-365"),
  ("sharepoint", "microsoft-365"),
  ("bigquery", "bigquery"),
  ("big query", "bigquery"),
  ("google bigquery", "bigquery"),
  ("youtube", "youtube"),
  ("video transcripts", "youtube"),
  ("subtitles", "youtube"),
  ("airtable", "airtable"),
  ("air table", "airtable"),
  ("contentful", "contentful"),
  ("headless cms", "contentful"),
  ("cms", "contentful"),
  ("dynamodb", "dynamodb"),
  ("dynamo", "dynamodb"),
  ("dynamo db", "dynamodb"),
  ("obsidian", "obsidian"),
  ("obsidian notes", "obsidian"),
  ("pkm", "obsidian"),
  ("make", "make"),
  ("integromat", "make"),
  ("make.com", "make"),
  ("postman", "postman"),
  ("api testing", "postman"),
  ("api collections", "postman"),
  ("sonarqube", "sonarqube"),
  ("sonar", "sonarqube"),
  ("code quality", "sonarqube"),
  ("static analysis", "sonarqube"),
  ("home assistant", "home-assistant"),
  ("smart home", "home-assistant"),
  ("iot", "home-assistant"),
  ("hass", "home-assistant"),
  ("spotify", "spotify"),
  ("music", "spotify"),
  ("playlist", "spotify")
]

/-- Use-case trigger table (`_USECASE_FRAMEWORK`), in declared order;
iteration order of the Python dict is insertion order, so `pick_framework`
tests these pairs top to bottom. -/
def usecase_framework : List (String × FrameworkChoice) := [
  ("customer_service", .crewai),
  ("customer service", .crewai),
  ("support", .crewai),
  ("research", .langgraph),
  ("data_analysis", .langgraph),
  ("data analysis", .langgraph),
  ("code_generation", .langgraph),
  ("code generation", .langgraph),
  ("coding", .langgraph),
  ("multi_agent", .autogen),
  ("multi-agent", .autogen),
  ("collaboration", .autogen),
  ("automation", .langgraph),
  ("content_creation", .crewai),
  ("content creation", .crewai),
  ("content", .crewai),
  ("video production", .crewai),
  ("video", .crewai),
  ("film", .crewai),
  ("media", .crewai),
  ("production pipeline", .crewai),
  ("creative", .crewai),
  ("storyboard", .crewai),
  ("typescript", .vercel_ai),
  ("nextjs", .vercel_ai),
  ("next.js", .vercel_ai),
  ("vercel", .vercel_ai),
  ("node", .vercel_ai),
  ("javascript", .vercel_ai),
  ("frontend", .vercel_ai),
  ("react", .vercel_ai),
  ("rust", .rig),
  ("rig", .rig),
  ("cargo", .rig),
  ("tokio", .rig),
  ("systems programming", .rig),
  ("low-latency", .rig),
  ("go", .adk_go),
  ("golang", .adk_go),
  ("adk", .adk_go),
  ("google adk", .adk_go),
  ("concurrency", .adk_go),
  ("goroutine", .adk_go)
]

/-- Structured requirements (`app/models/conversation.py`,
`ExtractedRequirements`).  These are exactly the declared pydantic fields;
in particular there is no `custom_agents` and no `repo_intent` field, which
is what makes the attribute reads in `recommender.py` line 267 and
`wizard.py` line 157 raise `AttributeError`.  `repo_analysis` is an opaque
JSON payload stored verbatim; it is embedded as an opaque string. -/
structure ExtractedRequirements where
  use_case : Option String := none
  description : Option String := none
  integrations : List String := []
  capabilities : List String := []
  scale : Option String := none
  compliance : List String := []
  framework_preference : Option FrameworkChoice := none
  deployment_preference : Option DeploymentTarget := none
  additional_notes : Option String := none
  repo_url : Option String := none
  repo_analysis : Option String := none
deriving DecidableEq, Repr

/-- Projection of a registry entry built by `resolve_integrations`
(`recommender.py` lines 188 to 197); in Python this is a plain dict with
exactly these keys. -/
structure IntegrationConfig where
  name : String
  command : String
  args : List String
  required_env : List String
  category : String
  tools_count : Nat
  icon : Option String
  npm_package : Option String
deriving DecidableEq, Repr

/-- Dict literal of `recommender.py` lines 188 to 197. -/
def integration_config_of (entry : MCPServerEntry) : IntegrationConfig :=
  { name := entry.name
    command := entry.command
    args := entry.args
    required_env := entry.required_env
    category := entry.category.value
    tools_count := entry.tools.length
    icon := entry.icon
    npm_package := entry.npm_package }

/-- Synonym lookup of one raw term: `_KEYWORD_TO_SERVER_ID.get(term.lower().strip())`. -/
def lookup_server_id (term : String) : Option String :=
  assocGet keyword_to_server_id (pyStrip (pyLower term))

/-- Loop body of `resolve_integrations` with the `seen` set made explicit.
Note the source adds `server_id` to `seen` before the catalog lookup, so an
id missing from the catalog is not retried either. -/
def resolve_integrations_go : List String → List String → List IntegrationConfig
  | [], _ => []
  | term :: rest, seen =>
    match lookup_server_id term with
    | none => resolve_integrations_go rest seen
    | some server_id =>
      if server_id ∈ seen then resolve_integrations_go rest seen
      else
        match get_server server_id with
        | some entry =>
            integration_config_of entry :: resolve_integrations_go rest (server_id :: seen)
        | none => resolve_integrations_go rest (server_id :: seen)

/-- `resolve_integrations` (`recommender.py` lines 178 to 198). -/
def resolve_integrations (raw : List String) : List IntegrationConfig :=
  resolve_integrations_go raw []

/-- `pick_framework` (`recommender.py` lines 201 to 210).  An empty
`use_case` string is falsy in Python, so it falls through to the default;
a nonempty one is lowercased, stripped and tested against the trigger
table top to bottom with Python's substring operator. -/
def pick_framework (reqs : ExtractedRequirements) : FrameworkChoice :=
  match reqs.framework_preference with
  | some fw => fw
  | none =>
    match reqs.use_case with
    | some u =>
      if u = "" then FrameworkChoice.langgraph
      else
        let uc := pyStrip (pyLower u)
        match usecase_framework.find? (fun p => pyIn p.1 uc) with
        | some p => p.2
        | none => FrameworkChoice.langgraph
    | none => FrameworkChoice.langgraph

/-- `pick_deployment` (`recommender.py` lines 213 to 220).  Both arms of
the scale test return `CLOUD`, so without an explicit preference the
result is `CLOUD` no matter what `scale` holds. -/
def pick_deployment (reqs : ExtractedRequirements) : DeploymentTarget :=
  match reqs.deployment_preference with
  | some d => d
  | none =>
    let scale := pyLower ((reqs.scale).getD "")
    if scale = "high" ∨ scale = "enterprise" then DeploymentTarget.cloud
    else DeploymentTarget.cloud

/-- `_FRAMEWORK_REASONS` (`recommender.py` lines 163 to 171); the dict has
an entry for every framework, so indexing never raises. -/
def framework_reasons : FrameworkChoice → String
  | .crewai => "CrewAI excels at role-based agent teams — ideal for workflows with distinct responsibilities like triage, specialist handling, and escalation."
  | .langgraph => "LangGraph provides fine-grained control over complex state machines and iterative workflows — great for research, analysis, and code generation."
  | .autogen => "AutoGen's group-chat paradigm is purpose-built for multi-agent collaboration where agents need to negotiate and iterate together."
  | .semantic_kernel => "Semantic Kernel offers enterprise-grade plugin architecture with strong .NET/Java interop — suited for large-scale enterprise integration."
  | .vercel_ai => "Vercel AI SDK provides a TypeScript-native agent framework with streaming, tool calling, and seamless Vercel/Next.js deployment — ideal for JavaScript/TypeScript developers."
  | .rig => "Rig is Rust's leading async AI agent framework — perfect for high-performance, low-latency workloads where memory safety and zero-cost abstractions matter."
  | .adk_go => "Google ADK-Go brings Go's concurrency model (goroutines) to AI agents — ideal for scalable, cloud-native services that need strong typing and fast compilation."

/-- One agent role descriptor.  In Python these are plain
`role`/`goal`(/`backstory`) dicts; the embedding fixes that shape. -/
structure AgentSpec where
  role : String
  goal : String
  backstory : Option String := none
deriving DecidableEq, Repr

/-- `_default_agents` (`recommender.py` lines 223 to 256). -/
def default_agents : FrameworkChoice → List AgentSpec
  | .crewai => [
      { role := "triage", goal := "Classify and route incoming requests" },
      { role := "specialist", goal := "Handle domain-specific queries" },
      { role := "escalation", goal := "Escalate complex issues to humans" }]
  | .autogen => [
      { role := "coordinator", goal := "Manage group conversation flow" },
      { role := "worker_1", goal := "Execute primary tasks" },
      { role := "critic", goal := "Review and validate outputs" }]
  | .vercel_ai => [
      { role := "planner", goal := "Break down tasks into actionable steps" },
      { role := "executor", goal := "Execute each step and return results" }]
  | .rig => [
      { role := "planner", goal := "Decompose tasks into async pipeline stages" },
      { role := "executor", goal := "Execute each stage with zero-copy efficiency" }]
  | .adk_go => [
      { role := "planner", goal := "Divide work into concurrent goroutine tasks" },
      { role := "executor", goal := "Execute tasks in parallel and merge results" }]
  | _ => [
      { role := "planner", goal := "Break down tasks into steps" },
      { role := "executor", goal := "Execute each step" }]

/-- Recommendation value (`app/models/conversation.py`, `Recommendation`).
The Python `agents` and `mcp_servers` fields are lists of dicts; the
embedding types them with the shapes the code actually stores. -/
structure Recommendation where
  framework : FrameworkChoice
  framework_reason : String
  agents : List AgentSpec := []
  mcp_servers : List IntegrationConfig := []
  deployment : DeploymentTarget
  estimated_monthly_cost : Option String := none
  summary : String
deriving DecidableEq, Repr

/-- Attribute read `reqs.custom_agents` at `recommender.py` line 267.
`ExtractedRequirements` declares no `custom_agents` field and its pydantic
configuration does not allow extras, so this read raises
`AttributeError` for every input (the orchestrator's attempt to set the
field at `orchestrator.py` line 691 likewise raises and is swallowed
there, and the constructor keyword `custom_agents=...` in
`claude_tools.py` line 318 is silently dropped). -/
def read_custom_agents (_reqs : ExtractedRequirements) : Except PyErr (List AgentSpec) :=
  .error (.attributeError "custom_agents")

/-- `build_recommendation` (`recommender.py` lines 259 to 290).  The
framework, deployment and integration computations precede the
`reqs.custom_agents` read and are total, so the first exception of the
body is that read; the remainder of the translation is kept for
structural fidelity but is unreachable. -/
def build_recommendation (reqs : ExtractedRequirements) : Except PyErr Recommendation := do
  let framework := pick_framework reqs
  let deployment := pick_deployment reqs
  let mcp_servers := resolve_integrations reqs.integrations
  let custom_agents ← read_custom_agents reqs
  let agents := if custom_agents.isEmpty then default_agents framework else custom_agents
  pure {
    framework := framework
    framework_reason := framework_reasons framework
    agents := agents
    mcp_servers := mcp_servers
    deployment := deployment
    estimated_monthly_cost :=
      some (if deployment = DeploymentTarget.cloud then "$50-150/month" else "Free (local)")
    summary :=
      "A " ++ framework.value ++ "-based agent with " ++ toString agents.length ++
      " roles, " ++ toString mcp_servers.length ++ " MCP integration(s), deployed to " ++
      deployment.value ++ "." }

/-! Session store (`app/services/session_store.py`) and the session model
(`app/models/conversation.py`). -/

/-- Python `datetime`, reduced to an abstract integer instant plus the
timezone-awareness flag that decides whether arithmetic with it raises. -/
structure PyDateTime where
  t : Int
  aware : Bool
deriving DecidableEq, Repr

/-- `datetime.utcnow()`: naive timestamp of the current instant. -/
def PyDateTime.utcnow (now : Int) : PyDateTime := ⟨now, false⟩

/-- `datetime.now(timezone.utc)`: aware timestamp of the current instant. -/
def PyDateTime.nowUtc (now : Int) : PyDateTime := ⟨now, true⟩

/-- Datetime subtraction: mixing naive and aware operands raises
`TypeError`, otherwise the result is the `timedelta` of the instants. -/
def PyDateTime.sub (a b : PyDateTime) : Except PyErr Int :=
  if a.aware = b.aware then .ok (a.t - b.t) else .error .typeError

/-- Datetime comparison (used by `min(..., key=...)` in `_evict_oldest`):
mixing naive and aware operands raises `TypeError`. -/
def PyDateTime.ltb (a b : PyDateTime) : Except PyErr Bool :=
  if a.aware = b.aware then .ok (decide (a.t < b.t)) else .error .typeError

/-- One chat message (`Message`); the default timestamp is the naive
`datetime.utcnow()`. -/
structure Message where
  role : Role
  content : String
  timestamp : PyDateTime
deriving DecidableEq, Repr

/-- Wizard session state (`WizardSession`).  `session_id` is produced by
`uuid4().hex[:12]` at construction; the embedding threads the generated
identifier in explicitly (collision resistance is outside the model).
Both timestamp defaults are the naive `datetime.utcnow()`. -/
structure WizardSession where
  session_id : String
  status : SessionStatus := .gathering
  messages : List Message := []
  requirements : ExtractedRequirements := {}
  recommendation : Option Recommendation := none
  created_at : PyDateTime
  updated_at : PyDateTime
deriving DecidableEq, Repr

/-- `WizardSession()` constructed at instant `now` with fresh id `newId`. -/
def WizardSession.new (newId : String) (now : Int) : WizardSession :=
  { session_id := newId
    created_at := PyDateTime.utcnow now
    updated_at := PyDateTime.utcnow now }

/-- In-memory session store (`SessionStore`): the `_sessions` dict as an
association list in insertion order, the `timedelta` TTL, and the cap. -/
structure SessionStore where
  sessions : List (String × WizardSession) := []
  ttl : Int
  max_count : Nat
deriving DecidableEq, Repr

/-- Dict upsert `self._sessions[k] = v`: an existing key keeps its
position and gets the new value; a new key is appended. -/
def dictSet (l : List (String × WizardSession)) (k : String) (v : WizardSession) :
    List (String × WizardSession) :=
  if l.any (fun p => p.1 = k) then
    l.map (fun p => if p.1 = k then (p.1, v) else p)
  else l ++ [(k, v)]

/-- Dict delete `del self._sessions[k]`. -/
def dictDel (l : List (String × WizardSession)) (k : String) :
    List (String × WizardSession) :=
  l.filter (fun p => p.1 ≠ k)

/-- `SessionStore._is_expired`: subtracts the stored (possibly naive)
`updated_at` from the aware current instant. -/
def SessionStore.is_expired (st : SessionStore) (session : WizardSession) (now : Int) :
    Except PyErr Bool := do
  let d ← (PyDateTime.nowUtc now).sub session.updated_at
  pure (decide (d > st.ttl))

/-- `SessionStore._evict_expired`: collect the ids whose age exceeds the
TTL (raising `TypeError` at the first naive timestamp met), then delete
them. -/
def SessionStore.evict_expired (st : SessionStore) (now : Int) : Except PyErr SessionStore := do
  let flags ← st.sessions.mapM (fun p => do
    let d ← (PyDateTime.nowUtc now).sub p.2.updated_at
    pure (p.1, decide (d > st.ttl)))
  let expired := (flags.filter (fun q => q.2)).map (fun q => q.1)
  pure { st with sessions := st.sessions.filter (fun p => ¬ expired.contains p.1) }

/-- One evaluation of `min(self._sessions, key=lambda sid: ...updated_at)`:
fold over the entries keeping the key with the least `updated_at`,
raising `TypeError` if naive and aware timestamps are compared. -/
def oldestKey : List (String × WizardSession) → Except PyErr String
  | [] => .error (.valueError "min() arg is an empty sequence")
  | p :: rest => go rest p
where
  go : List (String × WizardSession) → String × WizardSession → Except PyErr String
    | [], best => .ok best.1
    | q :: rest, best => do
      let lt ← q.2.updated_at.ltb best.2.updated_at
      go rest (if lt then q else best)

/-- Loop of `SessionStore._evict_oldest`; the fuel starts at one more than
the number of entries, which the loop can never exhaust since every
iteration deletes one entry. -/
def SessionStore.evict_oldest_go : Nat → SessionStore → Except PyErr SessionStore
  | 0, st => .ok st
  | fuel + 1, st =>
    if st.sessions.length < st.max_count then .ok st
    else do
      let oldest_id ← oldestKey st.sessions
      SessionStore.evict_oldest_go fuel { st with sessions := dictDel st.sessions oldest_id }

/-- `SessionStore._evict_oldest`. -/
def SessionStore.evict_oldest (st : SessionStore) : Except PyErr SessionStore :=
  SessionStore.evict_oldest_go (st.sessions.length + 1) st

/-- `SessionStore.create`: evict expired, evict oldest, then allocate and
store a fresh session (whose timestamps are the naive `utcnow`). -/
def SessionStore.create (st : SessionStore) (newId : String) (now : Int) :
    Except PyErr (WizardSession × SessionStore) := do
  let st ← st.evict_expired now
  let st ← st.evict_oldest
  let session := WizardSession.new newId now
  pure (session, { st with sessions := dictSet st.sessions session.session_id session })

/-- `SessionStore.get`: absent for an unknown id; an expired session is
deleted and reported absent; the expiry check can raise `TypeError` on a
naive stored timestamp. -/
def SessionStore.get (st : SessionStore) (session_id : String) (now : Int) :
    Except PyErr (Option WizardSession × SessionStore) :=
  match st.sessions.find? (fun p => p.1 = session_id) with
  | none => .ok (none, st)
  | some p => do
    let expired ← st.is_expired p.2 now
    if expired then .ok (none, { st with sessions := dictDel st.sessions session_id })
    else .ok (some p.2, st)

/-- `SessionStore.save`: stamp `updated_at` with the aware current instant
and upsert.  Returns the stamped session too, since the caller keeps
using the same (in Python, aliased) object. -/
def SessionStore.save (st : SessionStore) (session : WizardSession) (now : Int) :
    WizardSession × SessionStore :=
  let s := { session with updated_at := PyDateTime.nowUtc now }
  (s, { st with sessions := dictSet st.sessions s.session_id s })

/-- `SessionStore.list_sessions`: evict expired, then return the values. -/
def SessionStore.list_sessions (st : SessionStore) (now : Int) :
    Except PyErr (List WizardSession × SessionStore) := do
  let st ← st.evict_expired now
  pure (st.sessions.map (fun p => p.2), st)

/-- `SessionStore.delete`: pop by id, reporting whether anything was
removed. -/
def SessionStore.delete (st : SessionStore) (session_id : String) :
    Bool × SessionStore :=
  (st.sessions.any (fun p => p.1 = session_id),
   { st with sessions := dictDel st.sessions session_id })

/-! Wizard API (`app/api/wizard.py`) and the orchestrator's
session-resolution and no-API-key turn (`app/services/orchestrator.py`). -/

/-- Outcome of an HTTP endpoint: a value, an `HTTPException` with status
code and detail, or an unhandled Python exception escaping the handler. -/
inductive ApiResult (α : Type) where
  | ok (value : α)
  | httpError (status : Nat) (detail : String)
  | pyError (e : PyErr)
deriving DecidableEq, Repr

/-- Generated package (`app/models/template.py`, `GeneratedPackage`),
restricted to its scalar fields; the embedded endpoint never constructs
one (the generation stage raises first), it only passes through what the
generation collaborator would return. -/
structure GeneratedPackage where
  project_name : String
  template_id : String
  framework : FrameworkChoice
  deployment : DeploymentTarget
  summary : String := ""
deriving DecidableEq, Repr

/-- Confirm-request body (`wizard.py`, `ConfirmRequest`); the opaque
`config` dict is dropped since the endpoint raises before using it. -/
structure ConfirmRequest where
  project_name : String := "my-agent"
deriving DecidableEq, Repr

/-- Attribute read `session.requirements.repo_intent` at `wizard.py`
line 157, the first statement of the generation `try` block.
`ExtractedRequirements` declares no `repo_intent` field (the orchestrator's
attempt to set one at `orchestrator.py` line 717 raises inside a
swallowed-exception handler), so this read raises `AttributeError`. -/
def read_repo_intent (_reqs : ExtractedRequirements) : Except PyErr String :=
  .error (.attributeError "repo_intent")

/-- Body of the `try` block of `confirm_and_generate` (`wizard.py` lines
156 to 192).  Its first statement reads `repo_intent` and raises; the
dispatch to `generate_mcp_wrapper` / `generate_package` is abstracted as
the `gen` collaborator and is unreachable. -/
def generation_stage (gen : WizardSession → ConfirmRequest → Except PyErr GeneratedPackage)
    (session : WizardSession) (body : ConfirmRequest) : Except PyErr GeneratedPackage := do
  let _repo_intent ← read_repo_intent session.requirements
  gen session body

/-- `confirm_and_generate` (`wizard.py` lines 109 to 202), parameterised
by the code-package generation collaborator `gen`.  The
`MCPServerConfig(**s)` and `AgentRole(**a)` conversions before the state
transition are total in the embedding because the embedded
`Recommendation` already carries the dict shapes the backend stores. -/
def confirm_and_generate
    (gen : WizardSession → ConfirmRequest → Except PyErr GeneratedPackage)
    (st : SessionStore) (session_id : String) (body : ConfirmRequest) (now : Int) :
    ApiResult GeneratedPackage × SessionStore :=
  match st.get session_id now with
  | .error e => (.pyError e, st)
  | .ok (none, st) => (.httpError 404 "Session not found", st)
  | .ok (some session, st) =>
    if session.status ≠ SessionStatus.confirmed ∧ session.status ≠ SessionStatus.recommending then
      (.httpError 400 ("Session is in '" ++ session.status.value ++
        "' state — needs a confirmed recommendation first."), st)
    else
      match session.recommendation with
      | none => (.httpError 400 "No recommendation on this session", st)
      | some rec =>
        match get_template_for_framework rec.framework with
        | none =>
          (.httpError 500 ("No template found for framework '" ++ rec.framework.value ++ "'"), st)
        | some _template =>
          let session := { session with status := SessionStatus.generating }
          let (session, st) := st.save session now
          match generation_stage gen session body with
          | .error exc =>
            let session := { session with status := SessionStatus.confirmed }
            let (_, st) := st.save session now
            (.httpError 500 ("Code generation failed: " ++ exc.pymsg), st)
          | .ok package =>
            let session := { session with status := SessionStatus.complete }
            let (_, st) := st.save session now
            (.ok package, st)

/-- `get_session` endpoint (`wizard.py` lines 82 to 88). -/
def get_session_endpoint (st : SessionStore) (session_id : String) (now : Int) :
    ApiResult WizardSession × SessionStore :=
  match st.get session_id now with
  | .error e => (.pyError e, st)
  | .ok (none, st) => (.httpError 404 "Session not found", st)
  | .ok (some session, st) => (.ok session, st)

/-- Chat response (`app/models/conversation.py`, `ChatResponse`). -/
structure ChatResponse where
  session_id : String
  reply : String
  status : SessionStatus
  requirements : Option ExtractedRequirements := none
  recommendation : Option Recommendation := none
deriving DecidableEq, Repr

/-- Fixed assistant reply of the missing-API-key guard
(`orchestrator.py` lines 324 to 327). -/
def api_key_missing_reply : String :=
  "⚠️ The Anthropic API key is not configured. Please set ANTHROPIC_API_KEY in your .env file."

/-- Session resolution at the head of `process_message`
(`orchestrator.py` lines 311 to 317): a request with a session id looks it
up and, when the lookup comes back empty (unknown or expired id — or an
empty id string, which is falsy), silently falls back to `create`. -/
def resolve_or_create (st : SessionStore) (session_id : Option String)
    (newId : String) (now : Int) : Except PyErr (WizardSession × SessionStore) :=
  match session_id with
  | some sid =>
    if sid = "" then st.create newId now
    else do
      let (found, st) ← st.get sid now
      match found with
      | some session => pure (session, st)
      | none => st.create newId now
  | none => st.create newId now

/-- `process_message` (`orchestrator.py` lines 303 to 334) specialised to
the deterministic branch where `settings.anthropic_api_key` is empty (the
default configuration): resolve or create the session, append the user
message, short-circuit with the fixed apologetic reply, persist, and
answer with a `ChatResponse` that carries no requirements or
recommendation snapshot. -/
def process_message_no_api_key (st : SessionStore) (session_id : Option String)
    (user_message : String) (newId : String) (now : Int) :
    Except PyErr (ChatResponse × SessionStore) := do
  let (session, st) ← resolve_or_create st session_id newId now
  let userMsg : Message :=
    { role := Role.user, content := user_message, timestamp := PyDateTime.utcnow now }
  let session := { session with messages := session.messages ++ [userMsg] }
  let replyMsg : Message :=
    { role := Role.assistant, content := api_key_missing_reply,
      timestamp := PyDateTime.utcnow now }
  let session := { session with messages := session.messages ++ [replyMsg] }
  let (session, st) := st.save session now
  pure ({ session_id := session.session_id
          reply := api_key_missing_reply
          status := session.status }, st)

/-! Helper instances and lemmas for the claim theorems. -/

deriving instance DecidableEq for Except

/-- After an upsert, looking the key up finds exactly the stored value. -/
theorem find?_dictSet (l : List (String × WizardSession)) (k : String) (v : WizardSession) :
    (dictSet l k v).find? (fun p => p.1 = k) = some (k, v) := by
  unfold dictSet
  by_cases h : l.any (fun p => p.1 = k)
  · simp only [h, if_true]
    induction l with
    | nil => simp at h
    | cons p rest ih =>
      by_cases hp : p.1 = k
      · simp [List.find?, hp]
      · have hrest : rest.any (fun p => p.1 = k) := by
          simp only [List.any_cons, hp] at h
          simpa using h
        simp only [List.map_cons, List.find?, hp, if_neg]
        simpa [hp] using ih hrest
  · simp only [h, if_false]
    induction l with
    | nil => simp [List.find?]
    | cons p rest ih =>
      have hp : ¬ p.1 = k := by
        intro hk
        exact h (by simp [List.any_cons, hk])
      have hrest : ¬ rest.any (fun p => p.1 = k) := by
        intro hk
        exact h (by simp [List.any_cons, hk])
      simp only [List.cons_append, List.find?, hp]
      simpa [hp] using ih hrest

/-- The stored pair is a member of the upserted dict. -/
theorem mem_dictSet (l : List (String × WizardSession)) (k : String) (v : WizardSession) :
    (k, v) ∈ dictSet l k v :=
  List.mem_of_find?_eq_some (find?_dictSet l k v)

/-- Expiry-probe function of `SessionStore.evict_expired`. -/
def expiryProbe (now ttl : Int) (p : String × WizardSession) : Except PyErr (String × Bool) := do
  let d ← (PyDateTime.nowUtc now).sub p.2.updated_at
  pure (p.1, decide (d > ttl))

/-- Scanning a dict that contains a naive timestamp raises `TypeError`. -/
theorem mapM_expiryProbe_error (l : List (String × WizardSession)) (now ttl : Int)
    (h : ∃ p ∈ l, p.2.updated_at.aware = false) :
    l.mapM (expiryProbe now ttl) = .error .typeError := by
  induction l with
  | nil => simp at h
  | cons p rest ih =>
    rw [List.mapM_cons]
    by_cases hp : p.2.updated_at.aware = false
    · have hperr : expiryProbe now ttl p = .error .typeError := by
        simp [expiryProbe, PyDateTime.sub, PyDateTime.nowUtc, hp]
      rw [hperr]
      rfl
    · have hpt : p.2.updated_at.aware = true := by
        revert hp
        cases p.2.updated_at.aware <;> simp
      have hprobe : expiryProbe now ttl p =
          .ok (p.1, decide (now - p.2.updated_at.t > ttl)) := by
        simp [expiryProbe, PyDateTime.sub, PyDateTime.nowUtc, hpt]
      have hrest : ∃ q ∈ rest, q.2.updated_at.aware = false := by
        rcases h with ⟨q, hq, hqa⟩
        rcases List.mem_cons.mp hq with rfl | hq'
        · exact absurd hqa hp
        · exact ⟨q, hq', hqa⟩
      rw [hprobe, ih hrest]
      rfl

/-- Scanning a dict whose timestamps are all aware succeeds and reports
each entry's expiry flag. -/
theorem mapM_expiryProbe_ok (l : List (String × WizardSession)) (now ttl : Int)
    (h : ∀ p ∈ l, p.2.updated_at.aware = true) :
    l.mapM (expiryProbe now ttl) =
      .ok (l.map (fun p => (p.1, decide (now - p.2.updated_at.t > ttl)))) := by
  induction l with
  | nil => rfl
  | cons p rest ih =>
    have hp := h p (List.mem_cons_self _ _)
    have hprobe : expiryProbe now ttl p =
        .ok (p.1, decide (now - p.2.updated_at.t > ttl)) := by
      simp [expiryProbe, PyDateTime.sub, PyDateTime.nowUtc, hp]
    rw [List.mapM_cons, hprobe, ih (fun q hq => h q (List.mem_cons_of_mem _ hq))]
    rfl

/-- Store state after the deletion pass of `evict_expired`, given the
per-entry expiry flags. -/
def afterExpiry (st : SessionStore) (flags : List (String × Bool)) : SessionStore :=
  { st with sessions := st.sessions.filter (fun p => ¬ ((flags.filter (fun q => q.2)).map (fun q => q.1)).contains p.1) }

/-- `evict_expired` is the `mapM` of the expiry probe followed by the
deletion pass. -/
theorem evict_expired_eq (st : SessionStore) (now : Int) :
    st.evict_expired now =
      (st.sessions.mapM (expiryProbe now st.ttl)).bind (fun flags => .ok (afterExpiry st flags)) := by
  rfl

/-- A store holding a naive timestamp raises `TypeError` on expiry
eviction. -/
theorem evict_expired_error (st : SessionStore) (now : Int)
    (h : ∃ p ∈ st.sessions, p.2.updated_at.aware = false) :
    st.evict_expired now = .error .typeError := by
  rw [evict_expired_eq, mapM_expiryProbe_error st.sessions now st.ttl h]
  rfl

/-- Bind of a successful `Except` computation. -/
theorem exceptBind_ok {α β : Type} (x : α) (f : α → Except PyErr β) :
    (Except.ok x >>= f) = f x := rfl

/-- Bind of a failed `Except` computation. -/
theorem exceptBind_error {α β : Type} (e : PyErr) (f : α → Except PyErr β) :
    ((Except.error e : Except PyErr α) >>= f) = .error e := rfl

/-- Destructor for a successful `create`: the returned session is the
freshly constructed one (with naive timestamps) and the final dict is the
post-eviction dict with that session upserted. -/
theorem create_ok_cases (st : SessionStore) (nid : String) (t : Int)
    (sess : WizardSession) (st' : SessionStore)
    (h : st.create nid t = .ok (sess, st')) :
    sess = WizardSession.new nid t ∧
    ∃ stE : SessionStore, st'.sessions = dictSet stE.sessions nid (WizardSession.new nid t) := by
  unfold SessionStore.create at h
  cases h1 : st.evict_expired t with
  | error e =>
    rw [h1, exceptBind_error] at h
    exact absurd h (by simp)
  | ok st1 =>
    rw [h1, exceptBind_ok] at h
    cases h2 : st1.evict_oldest with
    | error e =>
      rw [h2, exceptBind_error] at h
      exact absurd h (by simp)
    | ok st2 =>
      rw [h2, exceptBind_ok] at h
      have h3 := Except.ok.inj h
      cases h3
      exact ⟨rfl, ⟨st2, rfl⟩⟩

/-! Claim theorems. -/

/-- C1 — the claim says `build_recommendation` raises no error and maps an
empty `ExtractedRequirements` to a complete default `Recommendation`.  On
the code this fails: `build_recommendation` reads `reqs.custom_agents`
(`recommender.py` line 267), a field `ExtractedRequirements` does not
declare, so every call — including the empty-requirements call `{}` of the
claim — raises `AttributeError` instead of returning a `Recommendation`.
The repository's own test `test_exec_get_recommendation`
(`tests/test_claude_tools.py` line 100) expects the call to succeed, so
the code contradicts its tests and the claim describes the intent. -/
theorem C1_build_recommendation_always_raises :
    ∀ reqs : ExtractedRequirements,
      build_recommendation reqs = .error (.attributeError "custom_agents") :=
  fun _ => rfl

/-- C4 — the claim says `max_count + k` sequential `create()` calls leave
the `max_count` most recent sessions.  On the code the scenario never
completes: the first `create` stores a session whose `updated_at` is the
naive `datetime.utcnow()`, and the second `create`'s expiry sweep
subtracts it from the aware `datetime.now(timezone.utc)`, raising
`TypeError` (here with `max_count = 1`, `ttl_minutes = 1440`, i.e. the
claim's `k = 1` instance). -/
theorem C4_create_sequence_raises_type_error :
    (({ ttl := 1440, max_count := 1 } : SessionStore).create "a" 0).bind
      (fun p => p.2.create "b" 1) = .error .typeError := by
  decide

/-- C7 — deployment selection: an explicit preference is returned
verbatim; without one the result is the hosted `cloud` target; and the
`scale` field has no influence at all — two requirement records differing
only in `scale` select the same deployment. -/
theorem C7_pick_deployment_ignores_scale :
    ∀ reqs : ExtractedRequirements,
      (∀ d, reqs.deployment_preference = some d → pick_deployment reqs = d) ∧
      (reqs.deployment_preference = none → pick_deployment reqs = DeploymentTarget.cloud) ∧
      (∀ s, pick_deployment { reqs with scale := s } = pick_deployment reqs) := by
  intro reqs
  refine ⟨?_, ?_, ?_⟩
  · intro d hd
    simp [pick_deployment, hd]
  · intro hn
    simp only [pick_deployment, hn]
    split <;> rfl
  · intro s
    cases hd : reqs.deployment_preference with
    | some d => simp [pick_deployment, hd]
    | none =>
      simp only [pick_deployment, hd]
      split <;> split <;> rfl

/-- Witness for C7 at concrete inputs: the empty requirements record has
no deployment preference and `pick_deployment` maps it to `cloud`, and
changing only `scale` to `"low"` leaves the choice unchanged. -/
theorem C7_pick_deployment_witness :
    ({} : ExtractedRequirements).deployment_preference = none ∧
    pick_deployment {} = DeploymentTarget.cloud ∧
    pick_deployment { scale := some "low" } = pick_deployment ({} : ExtractedRequirements) :=
  ⟨rfl, (C7_pick_deployment_ignores_scale {}).2.1 rfl,
   (C7_pick_deployment_ignores_scale {}).2.2 (some "low")⟩

/-- Generation collaborator that always succeeds, used to exhibit that the
confirm endpoint fails even when package generation itself would succeed. -/
def gen_always_ok : WizardSession → ConfirmRequest → Except PyErr GeneratedPackage :=
  fun session body =>
    .ok { project_name := body.project_name, template_id := "customer-service",
          framework := (session.recommendation.map (fun r => r.framework)).getD .langgraph,
          deployment := .cloud }

/-- Recommendation carried by `confirmed_session`, with the values the
recommendation engine would have produced for a bare `crewai` use case. -/
def confirmed_recommendation : Recommendation :=
  { framework := .crewai
    framework_reason := framework_reasons .crewai
    agents := default_agents .crewai
    deployment := .cloud
    estimated_monthly_cost := some "$50-150/month"
    summary := "A crewai-based agent with 3 roles, 0 MCP integration(s), deployed to cloud." }

/-- Session with a confirmed recommendation, as the orchestrator would
persist it (aware timestamp from `save`). -/
def confirmed_session : WizardSession :=
  { session_id := "s2", status := .confirmed,
    recommendation := some confirmed_recommendation,
    created_at := ⟨0, true⟩, updated_at := ⟨0, true⟩ }

/-- Store holding `confirmed_session` under its id, well within TTL. -/
def confirmed_store : SessionStore :=
  { sessions := [("s2", confirmed_session)], ttl := 86400, max_count := 500 }

/-- C2 — the claim says that for a session in `recommending`/`confirmed`
holding a recommendation, a successful package generation drives the
session through `generating` to `complete` and returns the package.  On
the code the success path is unreachable: the `try` block's first
statement reads `session.requirements.repo_intent` (`wizard.py` line 157),
a field `ExtractedRequirements` does not declare, so the endpoint raises
`AttributeError` before ever invoking the generator, rolls the session
back to `confirmed` and answers 500 — here shown with a generation
collaborator that always succeeds and a session satisfying every
precondition of the claim. -/
theorem C2_confirm_and_generate_cannot_complete :
    (confirm_and_generate gen_always_ok confirmed_store "s2" {} 1).1 =
      .httpError 500 ("Code generation failed: " ++ PyErr.pymsg (.attributeError "repo_intent")) ∧
    ((confirm_and_generate gen_always_ok confirmed_store "s2" {} 1).2.sessions.find?
        (fun p => p.1 = "s2")).map (fun p => p.2.status) = some SessionStatus.confirmed := by
  constructor
  · decide
  · decide

/-- C10 — implicit claim: a session returned by `create()` and never
`save()`d carries the naive `datetime.utcnow()` in `updated_at`, so every
subsequent `get` of its id — and every subsequent `create` or
`list_sessions` on the same store — runs the aware-minus-naive datetime
subtraction in the expiry check and raises `TypeError` instead of
returning. -/
theorem C10_unsaved_session_raises
    (st : SessionStore) (nid : String) (t : Int)
    (sess : WizardSession) (st' : SessionStore)
    (h : st.create nid t = .ok (sess, st')) :
    (∀ t2, st'.get sess.session_id t2 = .error .typeError) ∧
    (∀ nid2 t2, st'.create nid2 t2 = .error .typeError) ∧
    (∀ t2, st'.list_sessions t2 = .error .typeError) := by
  obtain ⟨hsess, stE, hsessions⟩ := create_ok_cases st nid t sess st' h
  have hnaive : (WizardSession.new nid t).updated_at.aware = false := rfl
  have hmem : ∃ p ∈ st'.sessions, p.2.updated_at.aware = false := by
    refine ⟨(nid, WizardSession.new nid t), ?_, hnaive⟩
    rw [hsessions]
    exact mem_dictSet _ _ _
  have herr : ∀ t2, st'.evict_expired t2 = .error .typeError :=
    fun t2 => evict_expired_error st' t2 hmem
  refine ⟨?_, ?_, ?_⟩
  · intro t2
    have hid : sess.session_id = nid := by rw [hsess]; rfl
    unfold SessionStore.get
    rw [hid, hsessions, find?_dictSet]
    have : st'.is_expired (WizardSession.new nid t) t2 = .error .typeError := by
      simp [SessionStore.is_expired, PyDateTime.sub, PyDateTime.nowUtc, hnaive]
    simp only [this]
    rfl
  · intro nid2 t2
    unfold SessionStore.create
    rw [herr t2, exceptBind_error]
  · intro t2
    unfold SessionStore.list_sessions
    rw [herr t2, exceptBind_error]

/-- Witness for C10: on an empty store with TTL 1440 and cap 500,
`create "a" 0` succeeds, and the subsequent `get`, `create` and
`list_sessions` calls all raise `TypeError`. -/
theorem C10_unsaved_session_witness :
    (({ ttl := 1440, max_count := 500 } : SessionStore).create "a" 0 =
      .ok (WizardSession.new "a" 0,
        { sessions := [("a", WizardSession.new "a" 0)], ttl := 1440, max_count := 500 })) ∧
    (({ sessions := [("a", WizardSession.new "a" 0)], ttl := 1440, max_count := 500 } :
        SessionStore).get (WizardSession.new "a" 0).session_id 7 = .error .typeError) ∧
    (({ sessions := [("a", WizardSession.new "a" 0)], ttl := 1440, max_count := 500 } :
        SessionStore).create "b" 7 = .error .typeError) ∧
    (({ sessions := [("a", WizardSession.new "a" 0)], ttl := 1440, max_count := 500 } :
        SessionStore).list_sessions 7 = .error .typeError) := by
  have h : (({ ttl := 1440, max_count := 500 } : SessionStore).create "a" 0 =
      .ok (WizardSession.new "a" 0,
        { sessions := [("a", WizardSession.new "a" 0)], ttl := 1440, max_count := 500 })) := by
    decide
  obtain ⟨h1, h2, h3⟩ := C10_unsaved_session_raises _ "a" 0 _ _ h
  exact ⟨h, h1 7, h2 "b" 7, h3 7⟩

/-- C9 — for any session that passes the confirm endpoint's guards (status
`confirmed` or `recommending`, a recommendation present, a template for
its framework) and thus enters the `generating` state, whatever generation
collaborator is plugged in, the generation stage throws (its first
statement reads the undeclared `repo_intent` field) and the endpoint
answers a 500 server error while rolling the stored session's status back
to `confirmed` — not `generating` and not `complete`. -/
theorem C9_generation_failure_rolls_back
    (gen : WizardSession → ConfirmRequest → Except PyErr GeneratedPackage)
    (st : SessionStore) (sid : String) (body : ConfirmRequest) (now : Int)
    (session : WizardSession) (rec : Recommendation) (tpl : AgentTemplate) (st₁ : SessionStore)
    (hget : st.get sid now = .ok (some session, st₁))
    (hstatus : session.status = SessionStatus.confirmed ∨
      session.status = SessionStatus.recommending)
    (hrec : session.recommendation = some rec)
    (htpl : get_template_for_framework rec.framework = some tpl) :
    (confirm_and_generate gen st sid body now).1 =
      .httpError 500 ("Code generation failed: " ++ PyErr.pymsg (.attributeError "repo_intent")) ∧
    ((confirm_and_generate gen st sid body now).2.sessions.find?
        (fun p => p.1 = session.session_id)).map (fun p => p.2.status) =
      some SessionStatus.confirmed := by
  have hcond : ¬ (session.status ≠ SessionStatus.confirmed ∧
      session.status ≠ SessionStatus.recommending) := by
    rcases hstatus with h | h <;> simp [h]
  unfold confirm_and_generate
  rw [hget]
  dsimp only
  rw [if_neg hcond, hrec]
  dsimp only
  rw [htpl]
  dsimp only
  have hgen : ∀ s b, generation_stage gen s b = .error (.attributeError "repo_intent") :=
    fun _ _ => rfl
  rw [hgen]
  dsimp only [SessionStore.save]
  rw [find?_dictSet]
  exact ⟨rfl, rfl⟩

/-- Witness for C9 at a concrete input: `confirmed_store` holds the
confirmed session `s2` with a crewai recommendation; every hypothesis of
the rollback theorem is discharged by evaluation, and the endpoint indeed
answers 500 and leaves `s2` at status `confirmed`. -/
theorem C9_rollback_witness :
    confirmed_store.get "s2" 1 = .ok (some confirmed_session, confirmed_store) ∧
    (confirmed_session.status = SessionStatus.confirmed ∨
      confirmed_session.status = SessionStatus.recommending) ∧
    confirmed_session.recommendation = some confirmed_recommendation ∧
    get_template_for_framework confirmed_recommendation.framework =
      some { id := "customer-service", framework := .crewai } ∧
    (confirm_and_generate gen_always_ok confirmed_store "s2" {} 1).1 =
      .httpError 500 ("Code generation failed: " ++ PyErr.pymsg (.attributeError "repo_intent")) ∧
    ((confirm_and_generate gen_always_ok confirmed_store "s2" {} 1).2.sessions.find?
        (fun p => p.1 = confirmed_session.session_id)).map (fun p => p.2.status) =
      some SessionStatus.confirmed := by
  have hget : confirmed_store.get "s2" 1 = .ok (some confirmed_session, confirmed_store) := by
    decide
  have htpl : get_template_for_framework confirmed_recommendation.framework =
      some { id := "customer-service", framework := .crewai } := by decide
  obtain ⟨hc1, hc2⟩ := C9_generation_failure_rolls_back gen_always_ok confirmed_store "s2" {} 1
    confirmed_session confirmed_recommendation { id := "customer-service", framework := .crewai }
    confirmed_store hget (Or.inl rfl) rfl htpl
  exact ⟨hget, Or.inl rfl, rfl, htpl, hc1, hc2⟩

/-- C3 counterexample — the claim says a chat-turn request carrying an
unknown session identifier is surfaced as a not-found condition and no
session is silently created.  On the code, a chat turn against an empty
store with the unknown id `"unknown-session"` answers normally with a
brand-new session `"fresh1"` (here along the deterministic unconfigured
api-key branch, whose session resolution at `orchestrator.py` lines 311
to 317 is shared by every branch): no not-found condition, and the store
now holds the newly created session. -/
theorem C3_chat_unknown_session_creates :
    (process_message_no_api_key { ttl := 86400, max_count := 500 } (some "unknown-session")
        "hello" "fresh1" 0).map
      (fun p => (p.1.session_id, p.1.status, p.2.sessions.map (fun q => q.1))) =
    .ok ("fresh1", SessionStatus.gathering, ["fresh1"]) := by
  decide

/-- C3 amended — for a session identifier whose store lookup reports
absent (unknown, or expired and swept by the lookup), the session lookup
endpoint surfaces a 404 not-found condition, but a chat-turn request with
such an identifier does not: the orchestrator silently creates a fresh
session and answers normally under the new identifier. -/
theorem C3_unknown_session_amended
    (st : SessionStore) (sid : String) (now : Int) (st₁ : SessionStore)
    (hsid : sid ≠ "")
    (hget : st.get sid now = .ok (none, st₁)) :
    get_session_endpoint st sid now = (.httpError 404 "Session not found", st₁) ∧
    ∀ msg nid sess st₂, st₁.create nid now = .ok (sess, st₂) →
      ∃ stF, process_message_no_api_key st (some sid) msg nid now =
        .ok ({ session_id := nid, reply := api_key_missing_reply,
               status := SessionStatus.gathering }, stF) := by
  constructor
  · unfold get_session_endpoint
    rw [hget]
  · intro msg nid sess st₂ hcreate
    obtain ⟨hsess, -⟩ := create_ok_cases st₁ nid now sess st₂ hcreate
    subst hsess
    unfold process_message_no_api_key resolve_or_create
    dsimp only
    rw [if_neg hsid, hget, exceptBind_ok]
    dsimp only
    rw [hcreate, exceptBind_ok]
    exact ⟨_, rfl⟩

/-- Witness for C3's amended statement at a concrete input: on an empty
store, looking up `"unknown-session"` gives 404 from the session endpoint,
while the chat turn creates and answers under the fresh id `"fresh1"`. -/
theorem C3_unknown_session_witness :
    ("unknown-session" : String) ≠ "" ∧
    ({ ttl := 86400, max_count := 500 } : SessionStore).get "unknown-session" 0 =
      .ok (none, { ttl := 86400, max_count := 500 }) ∧
    get_session_endpoint { ttl := 86400, max_count := 500 } "unknown-session" 0 =
      (.httpError 404 "Session not found", { ttl := 86400, max_count := 500 }) ∧
    ∃ stF, process_message_no_api_key { ttl := 86400, max_count := 500 }
        (some "unknown-session") "hello" "fresh1" 0 =
      .ok ({ session_id := "fresh1", reply := api_key_missing_reply,
             status := SessionStatus.gathering }, stF) := by
  have hsid : ("unknown-session" : String) ≠ "" := by decide
  have hget : ({ ttl := 86400, max_count := 500 } : SessionStore).get "unknown-session" 0 =
      .ok (none, { ttl := 86400, max_count := 500 }) := by decide
  obtain ⟨h404, hchat⟩ := C3_unknown_session_amended _ "unknown-session" 0 _ hsid hget
  have hcreate : ({ ttl := 86400, max_count := 500 } : SessionStore).create "fresh1" 0 =
      .ok (WizardSession.new "fresh1" 0,
        { sessions := [("fresh1", WizardSession.new "fresh1" 0)],
          ttl := 86400, max_count := 500 }) := by decide
  exact ⟨hsid, hget, h404, hchat "hello" "fresh1" _ _ hcreate⟩

/-- Store holding one session created by `create()` and never saved: its
`updated_at` is the naive `utcnow` timestamp.  With TTL 10, at instant
2000 the session's age would far exceed the TTL. -/
def naive_session_store : SessionStore :=
  { sessions := [("a", WizardSession.new "a" 0)], ttl := 10, max_count := 500 }

/-- C8 counterexample — the claim quantifies over every store state and
says `get` returns absent for an expired session.  In the reachable state
where the stored session still carries the naive `create()` timestamp,
`get` of an id whose age exceeds the TTL raises `TypeError` instead of
returning absent. -/
theorem C8_get_expired_naive_counterexample :
    naive_session_store.get "a" 2000 = .error .typeError := by
  decide

/-- C8 amended — restricted to store states whose sessions carry
timezone-aware `updated_at` stamps (as every session does after a `save`)
and consistent keys: `get` returns absent for an unknown id; for a stored
session whose age exceeds the TTL, `get` returns absent and deletes it, so
a subsequent `list_sessions` succeeds and no longer includes it; and a
stored session within the TTL is returned. -/
theorem C8_get_ttl_amended (st : SessionStore) (sid : String) (now : Int)
    (h_aware : ∀ p ∈ st.sessions, p.2.updated_at.aware = true)
    (h_keys : ∀ p ∈ st.sessions, p.2.session_id = p.1) :
    (st.sessions.find? (fun p => p.1 = sid) = none → st.get sid now = .ok (none, st)) ∧
    (∀ pr, st.sessions.find? (fun p => p.1 = sid) = some pr →
      now - pr.2.updated_at.t > st.ttl →
      st.get sid now = .ok (none, { st with sessions := dictDel st.sessions sid }) ∧
      ∃ l st₃, ({ st with sessions := dictDel st.sessions sid } : SessionStore).list_sessions now
          = .ok (l, st₃) ∧ ∀ s ∈ l, s.session_id ≠ sid) ∧
    (∀ pr, st.sessions.find? (fun p => p.1 = sid) = some pr →
      ¬ (now - pr.2.updated_at.t > st.ttl) →
      st.get sid now = .ok (some pr.2, st)) := by
  refine ⟨?_, ?_, ?_⟩
  · intro hfind
    unfold SessionStore.get
    rw [hfind]
  · intro pr hfind hexp
    have hmem := List.mem_of_find?_eq_some hfind
    have haw := h_aware pr hmem
    have hsub : (PyDateTime.nowUtc now).sub pr.2.updated_at = .ok (now - pr.2.updated_at.t) := by
      simp [PyDateTime.sub, PyDateTime.nowUtc, haw]
    have hisexp : st.is_expired pr.2 now = .ok true := by
      unfold SessionStore.is_expired
      rw [hsub, exceptBind_ok, decide_eq_true hexp]
      rfl
    constructor
    · unfold SessionStore.get
      rw [hfind]
      dsimp only
      rw [hisexp, exceptBind_ok]
      rfl
    · have haware2 : ∀ p ∈ dictDel st.sessions sid, p.2.updated_at.aware = true :=
        fun p hp => h_aware p (List.mem_of_mem_filter hp)
      have hevict : ({ st with sessions := dictDel st.sessions sid } : SessionStore).evict_expired
          now = .ok (afterExpiry { st with sessions := dictDel st.sessions sid }
            ((dictDel st.sessions sid).map
              (fun p => (p.1, decide (now - p.2.updated_at.t > st.ttl))))) := by
        rw [evict_expired_eq, mapM_expiryProbe_ok _ now _ haware2]
        rfl
      have hlist : ({ st with sessions := dictDel st.sessions sid } : SessionStore).list_sessions
          now = .ok ((afterExpiry { st with sessions := dictDel st.sessions sid }
              ((dictDel st.sessions sid).map
                (fun p => (p.1, decide (now - p.2.updated_at.t > st.ttl))))).sessions.map
              (fun p => p.2),
            afterExpiry { st with sessions := dictDel st.sessions sid }
              ((dictDel st.sessions sid).map
                (fun p => (p.1, decide (now - p.2.updated_at.t > st.ttl))))) := by
        unfold SessionStore.list_sessions
        rw [hevict, exceptBind_ok]
        rfl
      refine ⟨_, _, hlist, ?_⟩
      intro s hs
      obtain ⟨p, hp, rfl⟩ := List.mem_map.mp hs
      have hp2 : p ∈ dictDel st.sessions sid := List.mem_of_mem_filter hp
      have hp3 : p ∈ st.sessions ∧ p.1 ≠ sid := by
        have := List.mem_filter.mp hp2
        simpa using this
      rw [h_keys p hp3.1]
      exact hp3.2
  · intro pr hfind hfresh
    have hmem := List.mem_of_find?_eq_some hfind
    have haw := h_aware pr hmem
    have hsub : (PyDateTime.nowUtc now).sub pr.2.updated_at = .ok (now - pr.2.updated_at.t) := by
      simp [PyDateTime.sub, PyDateTime.nowUtc, haw]
    have hisexp : st.is_expired pr.2 now = .ok false := by
      unfold SessionStore.is_expired
      rw [hsub, exceptBind_ok, decide_eq_false hfresh]
      rfl
    unfold SessionStore.get
    rw [hfind]
    dsimp only
    rw [hisexp, exceptBind_ok]
    rfl

/-- Session as `save` would stamp it: aware `updated_at` at instant 0. -/
def aware_session : WizardSession :=
  { session_id := "a", created_at := ⟨0, true⟩, updated_at := ⟨0, true⟩ }

/-- Store holding `aware_session` with TTL 10. -/
def aware_store : SessionStore :=
  { sessions := [("a", aware_session)], ttl := 10, max_count := 500 }

/-- Witness for C8's amended statement at a concrete input: at instant 11
the session `"a"` (last updated at 0, TTL 10) is expired, `get` returns
absent and deletes it, and the subsequent `list_sessions` succeeds without
it. -/
theorem C8_get_ttl_witness :
    aware_store.sessions.find? (fun p => p.1 = "a") = some ("a", aware_session) ∧
    ((11 : Int) - aware_session.updated_at.t > aware_store.ttl) ∧
    aware_store.get "a" 11 =
      .ok (none, { aware_store with sessions := dictDel aware_store.sessions "a" }) ∧
    ∃ l st₃, ({ aware_store with sessions := dictDel aware_store.sessions "a" } :
        SessionStore).list_sessions 11 = .ok (l, st₃) ∧ ∀ s ∈ l, s.session_id ≠ "a" := by
  have h1 : ∀ p ∈ aware_store.sessions, p.2.updated_at.aware = true := by decide
  have h2 : ∀ p ∈ aware_store.sessions, p.2.session_id = p.1 := by decide
  have h3 : aware_store.sessions.find? (fun p => p.1 = "a") = some ("a", aware_session) := by
    decide
  have h4 : (11 : Int) - aware_session.updated_at.t > aware_store.ttl := by decide
  obtain ⟨hg, hl⟩ := (C8_get_ttl_amended aware_store "a" 11 h1 h2).2.1 ("a", aware_session) h3 h4
  exact ⟨h3, h4, hg, hl⟩

/-- Membership from an index lookup. -/
theorem mem_of_getElem?_eq {α : Type} (l : List α) (i : Nat) (a : α) (h : l[i]? = some a) :
    a ∈ l := by
  have h2 : l.get? i = some a := by rw [List.get?_eq_getElem?]; exact h
  exact List.get?_mem h2

/-- First-match semantics of `List.find?`: if the element at index `i`
satisfies the predicate and no earlier element does, `find?` returns it. -/
theorem find?_of_first {α : Type} (l : List α) (p : α → Bool) (i : Nat) (x : α)
    (hx : l[i]? = some x) (hpx : p x = true)
    (hmin : ∀ j y, j < i → l[j]? = some y → p y = false) :
    l.find? p = some x := by
  induction l generalizing i with
  | nil => simp at hx
  | cons a t ih =>
    cases i with
    | zero =>
      rw [List.getElem?_cons_zero] at hx
      obtain rfl := Option.some.inj hx
      rw [List.find?_cons_of_pos _ hpx]
    | succ n =>
      have h0 : p a = false := hmin 0 a (Nat.succ_pos n) (by rw [List.getElem?_cons_zero])
      rw [List.find?_cons_of_neg _ (by simp [h0])]
      apply ih n
      · rw [List.getElem?_cons_succ] at hx
        exact hx
      · intro j y hj hy
        refine hmin (j + 1) y (Nat.succ_lt_succ hj) ?_
        rw [List.getElem?_cons_succ]
        exact hy

/-- Every trigger key of the use-case table is a nonempty string. -/
theorem usecase_framework_keys_nonempty : ∀ p ∈ usecase_framework, p.1 ≠ "" := by decide

/-- C6 — framework selection: an explicit framework preference is
returned verbatim; with no preference and no use case (or a use case
matching no trigger) the default `langgraph` is returned; and with no
preference, the lowercased and stripped use-case label is tested against
the trigger table top to bottom with substring semantics in the table's
declared order — the first entry whose key occurs in the label (no
earlier entry matching) decides the framework. -/
theorem C6_pick_framework_characterisation :
    ∀ reqs : ExtractedRequirements,
      (∀ fw, reqs.framework_preference = some fw → pick_framework reqs = fw) ∧
      (reqs.framework_preference = none → reqs.use_case = none →
        pick_framework reqs = FrameworkChoice.langgraph) ∧
      (∀ u, reqs.framework_preference = none → reqs.use_case = some u →
        (∀ p ∈ usecase_framework, pyIn p.1 (pyStrip (pyLower u)) = false) →
        pick_framework reqs = FrameworkChoice.langgraph) ∧
      (∀ u i kw fw, reqs.framework_preference = none → reqs.use_case = some u →
        usecase_framework[i]? = some (kw, fw) →
        pyIn kw (pyStrip (pyLower u)) = true →
        (∀ p ∈ usecase_framework.take i, pyIn p.1 (pyStrip (pyLower u)) = false) →
        pick_framework reqs = fw) := by
  intro reqs
  refine ⟨?_, ?_, ?_, ?_⟩
  · intro fw h
    simp [pick_framework, h]
  · intro h1 h2
    simp [pick_framework, h1, h2]
  · intro u h1 h2 hnone
    simp only [pick_framework, h1, h2]
    by_cases hu : u = ""
    · rw [if_pos hu]
    · rw [if_neg hu]
      have hfind : usecase_framework.find? (fun p => pyIn p.1 (pyStrip (pyLower u))) = none :=
        List.find?_eq_none.mpr (fun p hp => by simp [hnone p hp])
      rw [hfind]
  · intro u i kw fw h1 h2 hidx hmatch hfirst
    simp only [pick_framework, h1, h2]
    have hmem := mem_of_getElem?_eq usecase_framework i (kw, fw) hidx
    have hkw : kw ≠ "" := usecase_framework_keys_nonempty (kw, fw) hmem
    have hu : u ≠ "" := by
      intro he
      subst he
      cases hd : kw.data with
      | nil =>
        exact hkw (congrArg String.mk hd)
      | cons c cs =>
        rw [show pyStrip (pyLower "") = "" from rfl] at hmatch
        unfold pyIn at hmatch
        rw [hd] at hmatch
        simp [charsContains] at hmatch
    rw [if_neg hu]
    have hfind := find?_of_first usecase_framework
      (fun p => pyIn p.1 (pyStrip (pyLower u))) i (kw, fw) hidx hmatch ?hmin
    · rw [hfind]
    case hmin =>
      intro j y hj hy
      have hyt : (usecase_framework.take i)[j]? = some y := by
        rw [List.getElem?_take, if_pos hj]
        exact hy
      exact hfirst y (mem_of_getElem?_eq _ j y hyt)

/-- Witness for C6 at a concrete input: for use case
`"Customer Support"` (no preference), the first matching trigger is the
third table entry `("support", crewai)` — the two earlier entries do not
occur in the normalised label — and `pick_framework` returns `crewai`. -/
theorem C6_pick_framework_witness :
    ({ use_case := some "Customer Support" } : ExtractedRequirements).framework_preference =
      none ∧
    ({ use_case := some "Customer Support" } : ExtractedRequirements).use_case =
      some "Customer Support" ∧
    usecase_framework[2]? = some ("support", FrameworkChoice.crewai) ∧
    pyIn "support" (pyStrip (pyLower "Customer Support")) = true ∧
    (∀ p ∈ usecase_framework.take 2,
      pyIn p.1 (pyStrip (pyLower "Customer Support")) = false) ∧
    pick_framework { use_case := some "Customer Support" } = FrameworkChoice.crewai := by
  have h1 : usecase_framework[2]? = some ("support", FrameworkChoice.crewai) := by decide
  have h2 : pyIn "support" (pyStrip (pyLower "Customer Support")) = true := by decide
  have h3 : ∀ p ∈ usecase_framework.take 2,
      pyIn p.1 (pyStrip (pyLower "Customer Support")) = false := by decide
  exact ⟨rfl, rfl, h1, h2, h3,
    (C6_pick_framework_characterisation _).2.2.2 "Customer Support" 2 "support"
      FrameworkChoice.crewai rfl rfl h1 h2 h3⟩

/-- First-occurrence deduplication, written the way the spec describes the
resolver's output: keep each identifier's first occurrence and drop every
later duplicate. -/
def first_occurrence_dedup : List String → List String
  | [] => []
  | x :: xs => x :: first_occurrence_dedup (xs.filter (fun y => y ≠ x))
termination_by l => l.length
decreasing_by
  simp only [List.length_cons]
  exact Nat.lt_succ_of_le (List.length_filter_le _ _)

/-- Deduplication returns only elements of its input. -/
theorem mem_first_occurrence_dedup {y : String} : ∀ {l : List String},
    y ∈ first_occurrence_dedup l → y ∈ l := by
  intro l
  induction l using first_occurrence_dedup.induct with
  | case1 => intro h; simp [first_occurrence_dedup] at h
  | case2 x xs ih =>
    intro h
    rw [first_occurrence_dedup] at h
    rcases List.mem_cons.mp h with rfl | h2
    · exact List.mem_cons_self _ _
    · exact List.mem_cons_of_mem _ (List.mem_of_mem_filter (ih h2))

/-- Deduplication output has no duplicates. -/
theorem nodup_first_occurrence_dedup : ∀ l : List String,
    (first_occurrence_dedup l).Nodup := by
  intro l
  induction l using first_occurrence_dedup.induct with
  | case1 => simp [first_occurrence_dedup]
  | case2 x xs ih =>
    rw [first_occurrence_dedup]
    refine List.nodup_cons.mpr ⟨?_, ih⟩
    intro hmem
    have := List.mem_filter.mp (mem_first_occurrence_dedup hmem)
    simp at this

/-- Filtering out a fresh identifier after filtering out the seen ones is
filtering against the extended seen set. -/
theorem filter_filter_notmem (tids : List String) (sid : String) (seen : List String) :
    (tids.filter (fun i => decide (i ∉ seen))).filter (fun y => y ≠ sid) =
    tids.filter (fun i => decide (i ∉ sid :: seen)) := by
  rw [List.filter_filter]
  apply List.filter_congr
  intro x _
  simp [List.mem_cons, not_or, Bool.and_comm, decide_not]

/-- Loop invariant of the resolver: with `seen` already recorded, the loop
computes exactly the projection of the not-yet-seen canonical identifiers,
deduplicated in first-occurrence order and filtered through the catalog. -/
theorem resolve_integrations_go_spec : ∀ (ts : List String) (seen : List String),
    resolve_integrations_go ts seen =
      (first_occurrence_dedup
        ((ts.filterMap lookup_server_id).filter (fun i => decide (i ∉ seen)))).filterMap
        (fun i => (get_server i).map integration_config_of) := by
  intro ts
  induction ts with
  | nil => intro seen; simp [resolve_integrations_go, first_occurrence_dedup]
  | cons t rest ih =>
    intro seen
    cases hl : lookup_server_id t with
    | none =>
      rw [resolve_integrations_go, hl]
      simp only [List.filterMap_cons, hl]
      exact ih seen
    | some sid =>
      rw [resolve_integrations_go, hl]
      simp only [List.filterMap_cons, hl]
      by_cases hs : sid ∈ seen
      · rw [if_pos hs]
        have hdrop : ((sid :: rest.filterMap lookup_server_id).filter
            (fun i => decide (i ∉ seen))) =
            (rest.filterMap lookup_server_id).filter (fun i => decide (i ∉ seen)) := by
          simp [List.filter_cons, hs]
        rw [hdrop]
        exact ih seen
      · rw [if_neg hs]
        have hstep : ((sid :: rest.filterMap lookup_server_id).filter
            (fun i => decide (i ∉ seen))) =
            sid :: (rest.filterMap lookup_server_id).filter (fun i => decide (i ∉ seen)) := by
          simp [List.filter_cons, hs]
        rw [hstep, first_occurrence_dedup, filter_filter_notmem, List.filterMap_cons]
        cases hg : get_server sid with
        | none =>
          dsimp only [Option.map_none']
          exact ih (sid :: seen)
        | some e =>
          dsimp only [Option.map_some']
          rw [ih (sid :: seen)]

/-- C5 — for every list of raw terms, `resolve_integrations` equals the
declarative pipeline: look each term up in the synonym table (case-folded
and stripped), deduplicate the canonical identifiers keeping first
occurrences, drop identifiers absent from the catalog, and project each
surviving catalog entry to its `IntegrationConfig`; and the deduplicated
identifier list has no duplicates.  Terms without a synonym entry and
identifiers missing from the catalog are dropped without error, and the
output order is the first-occurrence order of the distinct canonical
identifiers. -/
theorem C5_resolve_integrations_refines_dedup_pipeline :
    ∀ raw : List String,
      resolve_integrations raw =
        (first_occurrence_dedup (raw.filterMap lookup_server_id)).filterMap
          (fun i => (get_server i).map integration_config_of) ∧
      (first_occurrence_dedup (raw.filterMap lookup_server_id)).Nodup := by
  intro raw
  constructor
  · have h := resolve_integrations_go_spec raw []
    have hfilter : (raw.filterMap lookup_server_id).filter
        (fun i => decide (i ∉ ([] : List String))) = raw.filterMap lookup_server_id :=
      List.filter_eq_self.mpr (fun a _ => by simp)
    rw [resolve_integrations, h, hfilter]
  · exact nodup_first_occurrence_dedup _
